import Mathlib

/-!
Verification of the kube-lookout event classification and notification-thread
lifecycle engine (`lookout.py`) against its natural-language specification.

The Python source is shallowly embedded: the mutable fields of the
`KubeLookout` object become a `KState` record, and each method that mutates
state becomes a function `… → KState × List SendOp` returning the new state
together with the trace of Slack send operations it performed.  Slack delivery
is modelled on its success path: `chat_postMessage` returns a fresh message
reference whose timestamp is the current clock value, and `chat_update`
returns the reference of the message that was updated.  The bounded retry
loop of `_send_slack_block` is modelled separately (`send_slack_block_run`)
for the claims about delivery failure.
-/

namespace KubeLookout

/-- Python enum `KubeStatus` (lookout.py lines 26-29). -/
inductive KubeStatus where
  | TIMED_OUT
  | PROGRESSING
  | COMPLETE
deriving DecidableEq, Repr

/-- Python enum `KubeEvent` (lookout.py lines 35-37). -/
inductive KubeEvent where
  | DEPLOYMENT
  | DEGRADED
deriving DecidableEq, Repr

/-- A Slack message reference: the `(ts, channel)` pair returned by
`_send_slack_block` and stored in the tracking maps. -/
structure MessageRef where
  ts : Nat
  channel : String
deriving DecidableEq, Repr

/-- A deployment condition (`type`, `status`, `message`), as read from
`deployment.status.conditions`. -/
structure Condition where
  type : String
  status : String
  message : String
deriving DecidableEq, Repr

/-- A container image descriptor from `deployment.spec.template.spec.containers`. -/
structure Container where
  name : String
  image : String
deriving DecidableEq, Repr

/-- The fields of a Kubernetes deployment object that `lookout.py` reads.
`specReplicas` is `deployment.spec.replicas` (the desired count);
`statusReplicas` is `deployment.status.replicas`.  The optional counts are
`None`-able in the Kubernetes API and in the code. -/
structure Deployment where
  ns : String
  name : String
  specReplicas : Nat
  statusReplicas : Option Nat
  readyReplicas : Option Nat
  updatedReplicas : Option Nat
  unavailableReplicas : Option Nat
  conditions : List Condition
  containers : List Container
deriving DecidableEq, Repr

/-- The workload key `f"{metadata.namespace}/{metadata.name}"`. -/
def Deployment.key (d : Deployment) : String := d.ns ++ "/" ++ d.name

/-- The configuration passed to `KubeLookout.__init__`. -/
structure Config where
  warning_image : String
  progress_image : String
  recovering_image : String
  ok_image : String
  slack_deploy_channel : String
  slack_alert_channel : String
  cluster_name : String
  gcp_region : String
  gcp_project : String
  thread_refresh : Nat
  thread_timeout : Nat
deriving DecidableEq, Repr

/-- The mutable state of a `KubeLookout` instance (lookout.py lines 80-85). -/
structure KState where
  thread_head_deployment : Option MessageRef
  thread_head_degraded : Option MessageRef
  deployment_count : Nat
  degraded_count : Nat
  deployments : List (String × MessageRef)
  degraded : List (String × MessageRef)
  problems : List String
deriving DecidableEq, Repr

/-- The state of a freshly constructed `KubeLookout`. -/
def initState : KState :=
  { thread_head_deployment := none
    thread_head_degraded := none
    deployment_count := 0
    degraded_count := 0
    deployments := []
    degraded := []
    problems := [] }

/-- `self.thread_head[type]`. -/
def KState.headOf (s : KState) : KubeEvent → Option MessageRef
  | .DEPLOYMENT => s.thread_head_deployment
  | .DEGRADED => s.thread_head_degraded

/-- `self.thread_head[type] = v`. -/
def KState.setHead (s : KState) : KubeEvent → Option MessageRef → KState
  | .DEPLOYMENT, v => { s with thread_head_deployment := v }
  | .DEGRADED, v => { s with thread_head_degraded := v }

/-- The active tracking map for a category: `self.deployments` or `self.degraded`. -/
def KState.mapOf (s : KState) : KubeEvent → List (String × MessageRef)
  | .DEPLOYMENT => s.deployments
  | .DEGRADED => s.degraded

/-- The counter for a category: `self.deployment_count` or `self.degraded_count`. -/
def KState.countOf (s : KState) : KubeEvent → Nat
  | .DEPLOYMENT => s.deployment_count
  | .DEGRADED => s.degraded_count

/-- Python dict lookup `m[k]` / membership `k in m` (via `isSome`) on the
tracking maps, modelled as association lists. -/
def dlookup (k : String) : List (String × MessageRef) → Option MessageRef
  | [] => none
  | (k', v) :: m => if k' = k then some v else dlookup k m

/-- Python dict assignment `m[k] = v`: replace the entry in place when the key
is present, append it otherwise. -/
def dinsert (k : String) (v : MessageRef) (m : List (String × MessageRef)) :
    List (String × MessageRef) :=
  if (dlookup k m).isSome then
    m.map (fun p => if p.1 = k then (k, v) else p)
  else
    m ++ [(k, v)]

/-- Python dict removal `m.pop(k)` / `m.pop(k, None)`. -/
def derase (k : String) (m : List (String × MessageRef)) :
    List (String × MessageRef) :=
  m.filter (fun p => p.1 ≠ k)

/-- `self.problems[k] = True` (set semantics of a dict keyed by workload). -/
def pinsert (k : String) (l : List String) : List String :=
  if k ∈ l then l else l ++ [k]

/-- `self.problems.pop(k, None)`. -/
def perase (k : String) (l : List String) : List String :=
  l.filter (fun x => x ≠ k)

/-- A character repeated `n` times, Python's `c * n` on strings. -/
def repChar (c : Char) (n : Nat) : String := String.mk (List.replicate n c)

/-- The position normalization of `_generate_progress_bar` line 15:
`None` becomes `0`. -/
def normPos (position : Option Int) : Int := position.getD 0

/-- The denominator normalization of `_generate_progress_bar` line 16:
`None` or `0` becomes `1`. -/
def normMax (max_value : Option Int) : Int :=
  match max_value with
  | none => 1
  | some v => if v == 0 then 1 else v

/-- `_generate_progress_bar` (lookout.py lines 14-23).  The position may be
negative in the thread-head call site (`bar_max - len(...)`), so it is an
`Int`; Python's string repetition with a negative count yields the empty
string, matched here by `Int.toNat`.  Python computes
`int((100 / max_value * position) / 5)`, i.e. the exact rational value
`100·position / (max_value·5)` truncated toward zero, which is `Int.tdiv`
of the integer numerator by the integer denominator. -/
def generate_progress_bar (position : Option Int) (max_value : Option Int) : String :=
  let position : Int := normPos position
  let max_value : Int := normMax max_value
  let n : Int := Int.tdiv (100 * position) (max_value * 5)
  repChar '⬛' n.toNat ++ repChar '⬜' (20 - n).toNat ++ "\n"

/-- Number of bar cells (filled plus empty) in a generated progress bar;
every bar ends with a single newline character. -/
def progressBarCellCount (position : Option Int) (max_value : Option Int) : Nat :=
  (generate_progress_bar position max_value).length - 1

/-- Render an optional count the way a Python f-string renders it
(`None` for an absent value). -/
def optStr : Option Nat → String
  | none => "None"
  | some n => toString n

/-- A composed two-block Slack message: bold header, body text, accessory
icon URL (the fields of `KubeLookout.template` that the code fills in). -/
structure Block where
  headerText : String
  bodyText : String
  imageUrl : String
deriving DecidableEq, Repr

/-- A Slack delivery performed through `_send_slack_block`, on its success
path: either `chat_postMessage` of a new message or `chat_update` of an
existing one. -/
inductive SendOp where
  | post (channel : String) (blocks : Block) (thread_ts : Option Nat)
  | update (channel : String) (message_id : Nat) (blocks : Block) (thread_ts : Option Nat)
deriving DecidableEq, Repr

/-- `_generate_deployment_rollout_block` (lookout.py lines 297-355).
Besides composing the message it reads *and mutates* `self.problems`: it
always pops the snapshot's key, re-adds it when the latest condition is
`Progressing`/`False`, and pops it again when the rollout is complete.
It therefore returns the block together with the new problems registry. -/
def generate_deployment_rollout_block (cfg : Config) (problems : List String)
    (d : Deployment) (rollout_complete : Bool) : Block × List String :=
  let key := d.key
  let header := "*" ++ cfg.gcp_project ++ " deployment " ++ key ++
    " is rolling out an update.*"
  let message := String.join (d.containers.map (fun c =>
    "Container " ++ c.name ++ " has image _ " ++ c.image ++ " _" ++
    "_ https://console.cloud.google.com/kubernetes/deployment/" ++
    cfg.gcp_region ++ "/" ++ cfg.cluster_name ++ "/" ++ d.ns ++ "/" ++ d.name ++
    "/overview?project=" ++ cfg.gcp_project ++ " _\n"))
  let message := message ++ "\n"
  let unavailable := d.unavailableReplicas.getD 0
  let updated := d.updatedReplicas.getD 0
  let live_updates := if updated < unavailable then 0 else updated - unavailable
  let message := message ++ toString live_updates ++ " replicas updated out of " ++
    toString d.specReplicas ++ ", " ++ optStr d.readyReplicas ++ " ready.\n\n"
  let message := if problems.isEmpty then message
    else message ++ toString problems.length ++ " deployments are in trouble"
  let message := message ++
    generate_progress_bar (some (live_updates : Int)) (some (d.specReplicas : Int))
  let imageUrl := cfg.progress_image
  let problems1 := perase key problems
  let failing := match d.conditions.getLast? with
    | some c => c.type == "Progressing" && c.status == "False"
    | none => false
  let failMessage := match d.conditions.getLast? with
    | some c => c.message
    | none => ""
  let header := if failing then
      "*" ++ cfg.gcp_project ++ " deployment " ++ key ++ " is failing: " ++
        failMessage ++ "*"
    else header
  let imageUrl := if failing then cfg.warning_image else imageUrl
  let problems2 := if failing then pinsert key problems1 else problems1
  let imageUrl := if rollout_complete then cfg.ok_image else imageUrl
  let problems3 := if rollout_complete then perase key problems2 else problems2
  (⟨header, message, imageUrl⟩, problems3)

/-- `_generate_deployment_degraded_block` (lookout.py lines 357-378). -/
def generate_deployment_degraded_block (cfg : Config) (d : Deployment) : Block :=
  let key := d.key
  let header := "*" ++ cfg.gcp_project ++ " deployment " ++ key ++
    " has become degraded.*"
  let ready_replicas := d.readyReplicas.getD 0
  let message := "Deployment " ++ key ++ " has " ++ toString ready_replicas ++
    " ready replicas when it should have " ++ toString d.specReplicas ++ ".\n"
  let message := message ++
    generate_progress_bar (d.readyReplicas.map Int.ofNat) (some (d.specReplicas : Int))
  ⟨header, message, cfg.warning_image⟩

/-- `_generate_deployment_not_degraded_block` (lookout.py lines 380-400). -/
def generate_deployment_not_degraded_block (cfg : Config) (d : Deployment) : Block :=
  let key := d.key
  let header := "*" ++ cfg.gcp_project ++ " deployment " ++ key ++
    " is no longer in a degraded state.*"
  let message := "Deployment " ++ key ++ " has " ++ optStr d.readyReplicas ++
    " ready replicas out of " ++ toString d.specReplicas ++ ".\n"
  let message := message ++
    generate_progress_bar (d.readyReplicas.map Int.ofNat) (some (d.specReplicas : Int))
  ⟨header, message, cfg.ok_image⟩

/-- `_generate_thread_head_block` (lookout.py lines 402-449).  The first
branch of the Python `bar_max` computation (line 406) is dead: it is an `if`,
not an `elif`, so line 407 unconditionally overwrites it for the DEPLOYMENT
category. -/
def generate_thread_head_block (cfg : Config) (s : KState) (t : KubeEvent)
    (status : KubeStatus) : Block :=
  let bar_max : Nat := match t with
    | .DEPLOYMENT => s.deployment_count
    | .DEGRADED => if s.degraded_count == 0 then 1 else s.degraded_count
  let sm : String × String :=
    if !s.problems.isEmpty then ("having problems", cfg.recovering_image)
    else if status == KubeStatus.TIMED_OUT then ("timed out", cfg.warning_image)
    else if t == KubeEvent.DEPLOYMENT && status == KubeStatus.PROGRESSING then
      ("being updated", cfg.progress_image)
    else if t == KubeEvent.DEPLOYMENT && status == KubeStatus.COMPLETE then
      ("up to date", cfg.ok_image)
    else if t == KubeEvent.DEGRADED && status == KubeStatus.PROGRESSING then
      ("failing healthcheck and restarting", cfg.recovering_image)
    else if t == KubeEvent.DEGRADED && status == KubeStatus.COMPLETE then
      ("recovered", cfg.ok_image)
    else ("unknown", cfg.warning_image)
  let header := if bar_max == 1 then
      "*A kubernetes workload in " ++ cfg.gcp_project ++ " is " ++ sm.1 ++ "*"
    else
      "*Kubernetes workloads in " ++ cfg.gcp_project ++ " are " ++ sm.1 ++ "*"
  let message := "See the slack thread under this message for details\n"
  let message := match t with
    | .DEPLOYMENT =>
      message ++ "Progress: " ++ toString s.deployments.length ++
        " remaining out of " ++ toString s.deployment_count ++ "\n" ++
        generate_progress_bar (some ((bar_max : Int) - s.deployments.length))
          (some (bar_max : Int))
    | .DEGRADED =>
      message ++ "Progress: " ++ toString s.degraded.length ++
        " remaining out of " ++ toString s.degraded_count ++ "\n" ++
        generate_progress_bar (some ((bar_max : Int) - s.degraded.length))
          (some (bar_max : Int))
  ⟨header, message, sm.2⟩

/-- `_thread_head_ts` (lookout.py lines 219-241), on the success path of its
sends.  Returns the thread timestamp to anchor the caller's item message
under, the new state, and the trace of sends.  A timed-out head is closed
with a `TIMED_OUT` update and the whole problems registry is cleared; a
missing head is (re)opened with a new `PROGRESSING` post to the deploy
channel — for either category — and the registry is cleared again. -/
def thread_head_ts (cfg : Config) (now : Nat) (t : KubeEvent) (s : KState) :
    Nat × KState × List SendOp :=
  let step1 : KState × List SendOp :=
    match s.headOf t with
    | some r =>
      if cfg.thread_timeout + r.ts < now then
        let blk := generate_thread_head_block cfg s t KubeStatus.TIMED_OUT
        ({ s.setHead t none with problems := [] },
          [SendOp.update r.channel r.ts blk none])
      else (s, [])
    | none => (s, [])
  let s1 := step1.1
  match s1.headOf t with
  | none =>
    let blk := generate_thread_head_block cfg s1 t KubeStatus.PROGRESSING
    let resp : MessageRef := ⟨now, cfg.slack_deploy_channel⟩
    let s2 := { s1.setHead t (some resp) with problems := [] }
    (now, s2, step1.2 ++ [SendOp.post cfg.slack_deploy_channel blk none])
  | some r => (r.ts, s1, step1.2)

/-- `_update_thread_head` (lookout.py lines 243-269), on the success path.
The Python branch `type == KubeStatus.TIMED_OUT` (line 251) compares a
`KubeEvent` against a `KubeStatus` and is therefore dead code; it is omitted.
All call sites guarantee a non-`None` head (Python would raise on line 248
otherwise), so the `none` case is a no-op here. -/
def update_thread_head (cfg : Config) (t : KubeEvent) (s : KState) :
    KState × List SendOp :=
  match s.headOf t with
  | none => (s, [])
  | some r =>
    if (s.mapOf t).isEmpty then
      let blk := generate_thread_head_block cfg s t KubeStatus.COMPLETE
      let s' := match t with
        | .DEPLOYMENT => { s.setHead t none with deployment_count := 0 }
        | .DEGRADED => { s.setHead t none with degraded_count := 0 }
      (s', [SendOp.update r.channel r.ts blk none])
    else
      let blk := generate_thread_head_block cfg s t KubeStatus.PROGRESSING
      (s, [SendOp.update r.channel r.ts blk none])

/-- Rule 1 of `_handle_deployment_change` (lookout.py lines 152-160): new
rollout — key absent from `self.deployments` and updated-replica count absent. -/
def rule_new_rollout (cfg : Config) (now : Nat) (d : Deployment) (s : KState) :
    KState × List SendOp :=
  let key := d.key
  let acq := thread_head_ts cfg now KubeEvent.DEPLOYMENT s
  let gen := generate_deployment_rollout_block cfg acq.2.1.problems d false
  let s2 := { acq.2.1 with problems := gen.2 }
  let resp : MessageRef := ⟨now, cfg.slack_deploy_channel⟩
  let s3 := { s2 with deployments := dinsert key resp s2.deployments,
                      deployment_count := s2.deployment_count + 1 }
  let upd := update_thread_head cfg KubeEvent.DEPLOYMENT s3
  (upd.1, acq.2.2 ++ [SendOp.post cfg.slack_deploy_channel gen.1 (some acq.1)] ++ upd.2)

/-- Rule 2 of `_handle_deployment_change` (lookout.py lines 162-188): ongoing
rollout — key present in `self.deployments`.  Note that completion compares
`status.updated_replicas` with `status.replicas` (not `spec.replicas`) and
with the defaulted ready count, with Python `None == None` being true. -/
def rule_ongoing_rollout (cfg : Config) (now : Nat) (d : Deployment) (s : KState) :
    KState × List SendOp :=
  let key := d.key
  let ready := d.readyReplicas.getD 0
  let rollout_complete :=
    d.updatedReplicas == d.statusReplicas && d.statusReplicas == some ready
  let acq := thread_head_ts cfg now KubeEvent.DEPLOYMENT s
  let gen := generate_deployment_rollout_block cfg acq.2.1.problems d rollout_complete
  let s2 := { acq.2.1 with problems := gen.2 }
  let oldRef := (dlookup key s.deployments).getD ⟨0, ""⟩
  let resp : MessageRef := ⟨oldRef.ts, oldRef.channel⟩
  let s3 := { s2 with deployments := dinsert key resp s2.deployments }
  let s4 :=
    if rollout_complete then
      { s3 with deployments := derase key s3.deployments }
    else if gen.1.imageUrl == cfg.warning_image then
      { s3 with deployments := derase key s3.deployments,
                problems := pinsert key s3.problems }
    else s3
  let upd := update_thread_head cfg KubeEvent.DEPLOYMENT s4
  (upd.1, acq.2.2 ++ [SendOp.update oldRef.channel oldRef.ts gen.1 (some acq.1)] ++ upd.2)

/-- Rule 3 of `_handle_deployment_change` (lookout.py lines 190-205):
new/continuing degradation — defaulted ready count below `spec.replicas`.
The degraded counter is incremented unconditionally, also for in-place
updates of a key already present in `self.degraded`. -/
def rule_degraded (cfg : Config) (now : Nat) (d : Deployment) (s : KState) :
    KState × List SendOp :=
  let key := d.key
  let acq := thread_head_ts cfg now KubeEvent.DEGRADED s
  let blk := generate_deployment_degraded_block cfg d
  let target : String × Option Nat := match dlookup key s.degraded with
    | some r => if r.channel ≠ "" then (r.channel, some r.ts)
                else (cfg.slack_alert_channel, none)
    | none => (cfg.slack_alert_channel, none)
  let ro : MessageRef × SendOp := match target.2 with
    | some mid => (⟨mid, target.1⟩, SendOp.update target.1 mid blk (some acq.1))
    | none => (⟨now, target.1⟩, SendOp.post target.1 blk (some acq.1))
  let s2 := { acq.2.1 with degraded := dinsert key ro.1 acq.2.1.degraded,
                           degraded_count := acq.2.1.degraded_count + 1 }
  let upd := update_thread_head cfg KubeEvent.DEGRADED s2
  (upd.1, acq.2.2 ++ [ro.2] ++ upd.2)

/-- Rule 4 of `_handle_deployment_change` (lookout.py lines 207-217):
recovery — key present in `self.degraded` and defaulted ready count at least
`spec.replicas`.  The problems registry is not touched by this branch. -/
def rule_recovery (cfg : Config) (now : Nat) (d : Deployment) (s : KState) :
    KState × List SendOp :=
  let key := d.key
  let acq := thread_head_ts cfg now KubeEvent.DEGRADED s
  let blk := generate_deployment_not_degraded_block cfg d
  let r := (dlookup key s.degraded).getD ⟨0, ""⟩
  let op := SendOp.update r.channel r.ts blk (some acq.1)
  let s2 := { acq.2.1 with degraded := derase key acq.2.1.degraded }
  let upd := update_thread_head cfg KubeEvent.DEGRADED s2
  (upd.1, acq.2.2 ++ [op] ++ upd.2)

/-- `_handle_deployment_change` (lookout.py lines 140-217): the strict
priority chain over the four rules, skipping the `kube-system` namespace. -/
def handle_deployment_change (cfg : Config) (now : Nat) (d : Deployment)
    (s : KState) : KState × List SendOp :=
  if d.ns == "kube-system" then (s, [])
  else
    let key := d.key
    let ready := d.readyReplicas.getD 0
    if (dlookup key s.deployments).isNone && d.updatedReplicas.isNone then
      rule_new_rollout cfg now d s
    else if (dlookup key s.deployments).isSome then
      rule_ongoing_rollout cfg now d s
    else if ready < d.specReplicas then
      rule_degraded cfg now d s
    else if (dlookup key s.degraded).isSome && d.specReplicas ≤ ready then
      rule_recovery cfg now d s
    else (s, [])

/-- Fold `_handle_deployment_change` over a sequence of timestamped snapshots
starting from the freshly constructed state. -/
def runEvents (cfg : Config) (evs : List (Nat × Deployment)) : KState :=
  evs.foldl (fun s e => (handle_deployment_change cfg e.1 e.2 s).1) initState

/-- Outcome of one attempt of the retry loop in `_send_slack_block`: the
underlying Slack call either returns a `(ts, channel)` pair or raises. -/
inductive Attempt where
  | ok (ts : Nat) (channel : String)
  | err (e : String)
deriving DecidableEq, Repr

/-- How a Python call terminates: by returning a value (possibly `None`) or
by raising an exception. -/
inductive CallResult where
  | ret (v : Option (Nat × String))
  | exn (e : String)
deriving DecidableEq, Repr

/-- The retry loop of `_send_slack_block` (lookout.py lines 106-138), run on
a given list of attempt outcomes: each raised exception is caught, the
attempt budget is decremented, and the loop continues; when the budget is
exhausted the `while` loop exits and the function falls off its end,
returning `None`. -/
def send_slack_block_run : List Attempt → CallResult
  | [] => CallResult.ret none
  | Attempt.ok ts ch :: _ => CallResult.ret (some (ts, ch))
  | Attempt.err _ :: rest => send_slack_block_run rest

/-- `_send_slack_block` with its budget of `attempts = 5`, as a function of
the outcome of each underlying Slack call. -/
def send_slack_block_result (f : Nat → Attempt) : CallResult :=
  send_slack_block_run ((List.range 5).map f)

def cfg0 : Config :=
  { warning_image := "w", progress_image := "p", recovering_image := "r",
    ok_image := "o", slack_deploy_channel := "D", slack_alert_channel := "A",
    cluster_name := "c", gcp_region := "g", gcp_project := "P",
    thread_refresh := 900, thread_timeout := 3600 }

def condOk : Condition := ⟨"Progressing", "True", "ok"⟩
def condFail : Condition := ⟨"Progressing", "False", "bad"⟩

def degradedA : Deployment :=
  { ns := "n", name := "a", specReplicas := 3, statusReplicas := some 3,
    readyReplicas := some 1, updatedReplicas := some 1,
    unavailableReplicas := some 1, conditions := [condOk],
    containers := [⟨"c1", "img:1"⟩] }

def startA : Deployment := { degradedA with updatedReplicas := none }
def failA : Deployment := { degradedA with conditions := [condFail] }
def recoverA : Deployment :=
  { degradedA with readyReplicas := some 3, updatedReplicas := some 3 }
def completeA : Deployment :=
  { degradedA with statusReplicas := some 2, readyReplicas := some 2,
                   updatedReplicas := some 2 }
def degradedB : Deployment := { degradedA with name := "b" }

/-! Structural lemmas -/

@[simp] lemma headOf_DEPLOYMENT (s : KState) :
    s.headOf KubeEvent.DEPLOYMENT = s.thread_head_deployment := rfl
@[simp] lemma headOf_DEGRADED (s : KState) :
    s.headOf KubeEvent.DEGRADED = s.thread_head_degraded := rfl
@[simp] lemma mapOf_DEPLOYMENT (s : KState) :
    s.mapOf KubeEvent.DEPLOYMENT = s.deployments := rfl
@[simp] lemma mapOf_DEGRADED (s : KState) :
    s.mapOf KubeEvent.DEGRADED = s.degraded := rfl
@[simp] lemma countOf_DEPLOYMENT (s : KState) :
    s.countOf KubeEvent.DEPLOYMENT = s.deployment_count := rfl
@[simp] lemma countOf_DEGRADED (s : KState) :
    s.countOf KubeEvent.DEGRADED = s.degraded_count := rfl

@[simp] lemma setHead_deployments (s : KState) (t v) :
    (s.setHead t v).deployments = s.deployments := by cases t <;> rfl
@[simp] lemma setHead_degraded (s : KState) (t v) :
    (s.setHead t v).degraded = s.degraded := by cases t <;> rfl
@[simp] lemma setHead_deployment_count (s : KState) (t v) :
    (s.setHead t v).deployment_count = s.deployment_count := by cases t <;> rfl
@[simp] lemma setHead_degraded_count (s : KState) (t v) :
    (s.setHead t v).degraded_count = s.degraded_count := by cases t <;> rfl
@[simp] lemma setHead_problems (s : KState) (t v) :
    (s.setHead t v).problems = s.problems := by cases t <;> rfl
@[simp] lemma headOf_setHead_self (s : KState) (t v) :
    (s.setHead t v).headOf t = v := by cases t <;> rfl

lemma headOf_setHead_other (s : KState) {t t' : KubeEvent} (h : t' ≠ t) (v) :
    (s.setHead t v).headOf t' = s.headOf t' := by
  cases t <;> cases t' <;> simp_all [KState.setHead, KState.headOf]

@[simp] lemma headOf_problems_update (s : KState) (t : KubeEvent) (p : List String) :
    (KState.headOf { s with problems := p } t) = s.headOf t := by cases t <;> rfl

@[simp] lemma mapOf_problems_update (s : KState) (t : KubeEvent) (p : List String) :
    (KState.mapOf { s with problems := p } t) = s.mapOf t := by cases t <;> rfl

/-! Association-list lemmas -/

@[simp] lemma dlookup_nil (k : String) : dlookup k [] = none := rfl

@[simp] lemma dlookup_cons (k : String) (a : String × MessageRef) (m) :
    dlookup k (a :: m) = if a.1 = k then some a.2 else dlookup k m := rfl

lemma dlookup_append_right (k : String) (m m' : List (String × MessageRef))
    (h : dlookup k m = none) : dlookup k (m ++ m') = dlookup k m' := by
  induction m with
  | nil => rfl
  | cons a m ih =>
    by_cases hk : a.1 = k
    · simp [hk] at h
    · simp only [dlookup_cons, hk, if_neg, not_false_iff, List.cons_append] at h ⊢
      exact ih h

lemma lookup_dinsert (k : String) (v : MessageRef) (m : List (String × MessageRef)) :
    dlookup k (dinsert k v m) = some v := by
  unfold dinsert
  split
  · rename_i h
    induction m with
    | nil => simp at h
    | cons a m ih =>
      by_cases hk : a.1 = k
      · simp [hk]
      · simp only [dlookup_cons, hk, if_neg, not_false_iff] at h
        simpa [hk] using ih h
  · rename_i h
    have h0 : dlookup k m = none := by
      cases hm : dlookup k m with
      | none => rfl
      | some v' => simp [hm] at h
    rw [dlookup_append_right k m _ h0]
    simp

lemma dinsert_ne_nil (k : String) (v : MessageRef) (m : List (String × MessageRef)) :
    dinsert k v m ≠ [] := by
  unfold dinsert
  split
  · rename_i h
    cases m with
    | nil => simp at h
    | cons a m => simp
  · simp

lemma lookup_derase (k : String) (m : List (String × MessageRef)) :
    dlookup k (derase k m) = none := by
  induction m with
  | nil => rfl
  | cons a m ih =>
    by_cases hk : a.1 = k
    · simpa [derase, hk] using ih
    · simpa [derase, List.filter, hk] using ih

/-! Problems-registry lemmas -/

lemma mem_perase {k k' : String} {l : List String} :
    k' ∈ perase k l ↔ k' ∈ l ∧ k' ≠ k := by
  simp [perase]

lemma not_mem_perase_self (k : String) (l : List String) : k ∉ perase k l := by
  simp [mem_perase]

lemma mem_pinsert {k k' : String} {l : List String} :
    k' ∈ pinsert k l ↔ k' ∈ l ∨ k' = k := by
  unfold pinsert
  split
  · rename_i h
    constructor
    · exact Or.inl
    · rintro (h' | rfl) <;> [exact h'; exact h]
  · simp

lemma perase_pinsert_self (k : String) (l : List String) :
    perase k (pinsert k l) = perase k l := by
  unfold pinsert
  split
  · rfl
  · simp [perase, List.filter_append]

lemma perase_subset (k : String) (l : List String) : perase k l ⊆ l := by
  intro x hx; exact (mem_perase.1 hx).1

/-! `thread_head_ts` characterization -/

lemma thread_head_ts_fresh (cfg : Config) (now : Nat) (t : KubeEvent) (s : KState)
    (hr : MessageRef) (hh : s.headOf t = some hr)
    (hfresh : ¬ cfg.thread_timeout + hr.ts < now) :
    thread_head_ts cfg now t s = (hr.ts, s, []) := by
  cases t <;> simp only [headOf_DEPLOYMENT, headOf_DEGRADED] at hh <;>
    simp [thread_head_ts, KState.headOf, hh, hfresh]

lemma thread_head_ts_frame (cfg : Config) (now : Nat) (t : KubeEvent) (s : KState) :
    ((thread_head_ts cfg now t s).2.1).deployments = s.deployments ∧
    ((thread_head_ts cfg now t s).2.1).degraded = s.degraded ∧
    ((thread_head_ts cfg now t s).2.1).deployment_count = s.deployment_count ∧
    ((thread_head_ts cfg now t s).2.1).degraded_count = s.degraded_count := by
  cases t
  · cases hh : s.thread_head_deployment with
    | none => simp [thread_head_ts, KState.headOf, KState.setHead, hh]
    | some r =>
      by_cases hto : cfg.thread_timeout + r.ts < now <;>
        simp [thread_head_ts, KState.headOf, KState.setHead, hh, hto]
  · cases hh : s.thread_head_degraded with
    | none => simp [thread_head_ts, KState.headOf, KState.setHead, hh]
    | some r =>
      by_cases hto : cfg.thread_timeout + r.ts < now <;>
        simp [thread_head_ts, KState.headOf, KState.setHead, hh, hto]

lemma thread_head_ts_headOf_isSome (cfg : Config) (now : Nat) (t : KubeEvent) (s : KState) :
    (((thread_head_ts cfg now t s).2.1).headOf t).isSome = true := by
  cases t
  · cases hh : s.thread_head_deployment with
    | none => simp [thread_head_ts, KState.headOf, KState.setHead, hh]
    | some r =>
      by_cases hto : cfg.thread_timeout + r.ts < now <;>
        simp [thread_head_ts, KState.headOf, KState.setHead, hh, hto]
  · cases hh : s.thread_head_degraded with
    | none => simp [thread_head_ts, KState.headOf, KState.setHead, hh]
    | some r =>
      by_cases hto : cfg.thread_timeout + r.ts < now <;>
        simp [thread_head_ts, KState.headOf, KState.setHead, hh, hto]

lemma thread_head_ts_headOf_other (cfg : Config) (now : Nat) (t t' : KubeEvent)
    (hne : t' ≠ t) (s : KState) :
    ((thread_head_ts cfg now t s).2.1).headOf t' = s.headOf t' := by
  cases t <;> cases t' <;> try exact absurd rfl hne
  · cases hh : s.thread_head_deployment with
    | none => simp [thread_head_ts, KState.headOf, KState.setHead, hh]
    | some r =>
      by_cases hto : cfg.thread_timeout + r.ts < now <;>
        simp [thread_head_ts, KState.headOf, KState.setHead, hh, hto]
  · cases hh : s.thread_head_degraded with
    | none => simp [thread_head_ts, KState.headOf, KState.setHead, hh]
    | some r =>
      by_cases hto : cfg.thread_timeout + r.ts < now <;>
        simp [thread_head_ts, KState.headOf, KState.setHead, hh, hto]

/-! `update_thread_head` characterization -/

lemma update_thread_head_frame (cfg : Config) (t : KubeEvent) (s : KState) :
    ((update_thread_head cfg t s).1).deployments = s.deployments ∧
    ((update_thread_head cfg t s).1).degraded = s.degraded ∧
    ((update_thread_head cfg t s).1).problems = s.problems := by
  cases t
  · cases hh : s.thread_head_deployment with
    | none => simp [update_thread_head, KState.headOf, KState.setHead, hh]
    | some r =>
      by_cases he : s.deployments.isEmpty <;>
        simp [update_thread_head, KState.headOf, KState.setHead, KState.mapOf, hh, he]
  · cases hh : s.thread_head_degraded with
    | none => simp [update_thread_head, KState.headOf, KState.setHead, hh]
    | some r =>
      by_cases he : s.degraded.isEmpty <;>
        simp [update_thread_head, KState.headOf, KState.setHead, KState.mapOf, hh, he]

lemma update_thread_head_empty (cfg : Config) (t : KubeEvent) (s : KState)
    (hhead : (s.headOf t).isSome = true) (he : s.mapOf t = []) :
    ((update_thread_head cfg t s).1).headOf t = none ∧
    ((update_thread_head cfg t s).1).countOf t = 0 ∧
    ((update_thread_head cfg t s).1).mapOf t = [] := by
  cases t <;> simp only [mapOf_DEPLOYMENT, mapOf_DEGRADED] at he <;>
    simp only [headOf_DEPLOYMENT, headOf_DEGRADED] at hhead
  · cases hh : s.thread_head_deployment with
    | none => rw [hh] at hhead; simp at hhead
    | some r => simp [update_thread_head, KState.headOf, KState.setHead, KState.mapOf, hh, he]
  · cases hh : s.thread_head_degraded with
    | none => rw [hh] at hhead; simp at hhead
    | some r => simp [update_thread_head, KState.headOf, KState.setHead, KState.mapOf, hh, he]

lemma update_thread_head_nonempty (cfg : Config) (t : KubeEvent) (s : KState)
    (he : s.mapOf t ≠ []) :
    (update_thread_head cfg t s).1 = s := by
  cases t <;> simp only [mapOf_DEPLOYMENT, mapOf_DEGRADED] at he
  · cases hh : s.thread_head_deployment with
    | none => simp [update_thread_head, KState.headOf, hh]
    | some r =>
      simp [update_thread_head, KState.headOf, KState.mapOf, hh, List.isEmpty_iff, he]
  · cases hh : s.thread_head_degraded with
    | none => simp [update_thread_head, KState.headOf, hh]
    | some r =>
      simp [update_thread_head, KState.headOf, KState.mapOf, hh, List.isEmpty_iff, he]

lemma update_thread_head_none (cfg : Config) (t : KubeEvent) (s : KState)
    (hh : s.headOf t = none) :
    (update_thread_head cfg t s).1 = s := by
  cases t <;> simp only [headOf_DEPLOYMENT, headOf_DEGRADED] at hh <;>
    simp [update_thread_head, KState.headOf, hh]

lemma update_thread_head_other (cfg : Config) (t t' : KubeEvent) (hne : t' ≠ t)
    (s : KState) :
    ((update_thread_head cfg t s).1).headOf t' = s.headOf t' ∧
    ((update_thread_head cfg t s).1).countOf t' = s.countOf t' := by
  cases t <;> cases t' <;> try exact absurd rfl hne
  · cases hh : s.thread_head_deployment with
    | none => simp [update_thread_head, KState.headOf, hh]
    | some r =>
      by_cases he : s.deployments.isEmpty <;>
        simp [update_thread_head, KState.headOf, KState.setHead, KState.mapOf, hh, he]
  · cases hh : s.thread_head_degraded with
    | none => simp [update_thread_head, KState.headOf, hh]
    | some r =>
      by_cases he : s.degraded.isEmpty <;>
        simp [update_thread_head, KState.headOf, KState.setHead, KState.mapOf, hh, he]

/-! Rule-level characterizations -/

lemma rule_new_rollout_char (cfg : Config) (now : Nat) (d : Deployment) (s : KState) :
    ((rule_new_rollout cfg now d s).1).deployments =
      dinsert d.key ⟨now, cfg.slack_deploy_channel⟩ s.deployments ∧
    ((rule_new_rollout cfg now d s).1).degraded = s.degraded ∧
    ((rule_new_rollout cfg now d s).1).degraded_count = s.degraded_count ∧
    ((rule_new_rollout cfg now d s).1).headOf KubeEvent.DEGRADED =
      s.headOf KubeEvent.DEGRADED ∧
    (((rule_new_rollout cfg now d s).1).headOf KubeEvent.DEPLOYMENT).isSome = true ∧
    ((rule_new_rollout cfg now d s).1).deployment_count = s.deployment_count + 1 := by
  obtain ⟨hd, hg, hc1, hc2⟩ := thread_head_ts_frame cfg now KubeEvent.DEPLOYMENT s
  have hsome := thread_head_ts_headOf_isSome cfg now KubeEvent.DEPLOYMENT s
  have hother := thread_head_ts_headOf_other cfg now
    KubeEvent.DEPLOYMENT KubeEvent.DEGRADED (by decide) s
  simp only [rule_new_rollout]
  rw [update_thread_head_nonempty cfg _ _ (by simp [KState.mapOf, hd, dinsert_ne_nil])]
  simp_all

lemma update_norm (cfg : Config) (t : KubeEvent) (sMid : KState)
    (hhead : (sMid.headOf t).isSome = true) :
    ((((update_thread_head cfg t sMid).1).headOf t).isSome = true ↔
      ((update_thread_head cfg t sMid).1).mapOf t ≠ []) ∧
    (((update_thread_head cfg t sMid).1).mapOf t = [] →
      ((update_thread_head cfg t sMid).1).headOf t = none ∧
      ((update_thread_head cfg t sMid).1).countOf t = 0) ∧
    ((update_thread_head cfg t sMid).1).mapOf t = sMid.mapOf t := by
  by_cases he : sMid.mapOf t = []
  · obtain ⟨h1, h2, h3⟩ := update_thread_head_empty cfg t sMid hhead he
    exact ⟨by simp [h1, h3], fun _ => ⟨h1, h2⟩, h3.trans he.symm⟩
  · rw [update_thread_head_nonempty cfg t sMid he]
    exact ⟨⟨fun _ => he, fun _ => hhead⟩, fun h => absurd h he, rfl⟩

lemma rule_ongoing_rollout_frame (cfg : Config) (now : Nat) (d : Deployment) (s : KState) :
    ((rule_ongoing_rollout cfg now d s).1).degraded = s.degraded ∧
    ((rule_ongoing_rollout cfg now d s).1).degraded_count = s.degraded_count ∧
    ((rule_ongoing_rollout cfg now d s).1).headOf KubeEvent.DEGRADED =
      s.headOf KubeEvent.DEGRADED := by
  obtain ⟨hd, hg, hc1, hc2⟩ := thread_head_ts_frame cfg now KubeEvent.DEPLOYMENT s
  have hother := thread_head_ts_headOf_other cfg now
    KubeEvent.DEPLOYMENT KubeEvent.DEGRADED (by decide) s
  simp only [rule_ongoing_rollout]
  split_ifs with h1 h2 <;>
  · refine ⟨?_, ?_, ?_⟩
    · rw [(update_thread_head_frame cfg _ _).2.1]; simp_all
    · simp only [← countOf_DEGRADED]
      rw [(update_thread_head_other cfg
        KubeEvent.DEPLOYMENT KubeEvent.DEGRADED (by decide) _).2]
      simp_all [KState.countOf]
    · rw [(update_thread_head_other cfg
        KubeEvent.DEPLOYMENT KubeEvent.DEGRADED (by decide) _).1]
      simp_all [KState.headOf]

lemma perase_idem (k : String) (l : List String) :
    perase k (perase k l) = perase k l := by
  induction l with
  | nil => rfl
  | cons a l ih =>
    by_cases hk : a = k
    · simp [perase, hk, ih]
    · simp only [perase, List.filter] at ih ⊢
      simp [hk, ih]

lemma gen_rollout_problems_complete (cfg : Config) (p : List String) (d : Deployment) :
    (generate_deployment_rollout_block cfg p d true).2 = perase d.key p := by
  unfold generate_deployment_rollout_block
  simp only [if_true]
  split
  · rw [perase_pinsert_self, perase_idem]
  · rw [perase_idem]

lemma thread_head_ts_problems (cfg : Config) (now : Nat) (t : KubeEvent) (s : KState) :
    ((thread_head_ts cfg now t s).2.1).problems = s.problems ∨
    ((thread_head_ts cfg now t s).2.1).problems = [] := by
  cases t
  · cases hh : s.thread_head_deployment with
    | none => simp [thread_head_ts, KState.headOf, KState.setHead, hh]
    | some r =>
      by_cases hto : cfg.thread_timeout + r.ts < now <;>
        simp [thread_head_ts, KState.headOf, KState.setHead, hh, hto]
  · cases hh : s.thread_head_degraded with
    | none => simp [thread_head_ts, KState.headOf, KState.setHead, hh]
    | some r =>
      by_cases hto : cfg.thread_timeout + r.ts < now <;>
        simp [thread_head_ts, KState.headOf, KState.setHead, hh, hto]

lemma rule_ongoing_rollout_shape (cfg : Config) (now : Nat) (d : Deployment) (s : KState) :
    ∃ sMid : KState,
      (rule_ongoing_rollout cfg now d s).1 = (update_thread_head cfg KubeEvent.DEPLOYMENT sMid).1 ∧
      (sMid.headOf KubeEvent.DEPLOYMENT).isSome = true := by
  have hsome := thread_head_ts_headOf_isSome cfg now KubeEvent.DEPLOYMENT s
  simp only [rule_ongoing_rollout]
  split_ifs with h1 h2 <;>
  · refine ⟨_, rfl, ?_⟩
    simp_all [KState.headOf]

lemma rule_ongoing_rollout_norm (cfg : Config) (now : Nat) (d : Deployment) (s : KState) :
    ((((rule_ongoing_rollout cfg now d s).1).headOf KubeEvent.DEPLOYMENT).isSome = true ↔
      ((rule_ongoing_rollout cfg now d s).1).deployments ≠ []) ∧
    (((rule_ongoing_rollout cfg now d s).1).deployments = [] →
      ((rule_ongoing_rollout cfg now d s).1).headOf KubeEvent.DEPLOYMENT = none ∧
      ((rule_ongoing_rollout cfg now d s).1).deployment_count = 0) := by
  obtain ⟨sMid, heq, hh⟩ := rule_ongoing_rollout_shape cfg now d s
  rw [heq]
  obtain ⟨hiff, hemp, hmap⟩ := update_norm cfg KubeEvent.DEPLOYMENT sMid hh
  simp only [mapOf_DEPLOYMENT, countOf_DEPLOYMENT] at hiff hemp
  exact ⟨hiff, hemp⟩

lemma rule_ongoing_rollout_complete (cfg : Config) (now : Nat) (d : Deployment) (s : KState)
    (hcomp : (d.updatedReplicas == d.statusReplicas &&
      d.statusReplicas == some (d.readyReplicas.getD 0)) = true) :
    dlookup d.key ((rule_ongoing_rollout cfg now d s).1).deployments = none ∧
    d.key ∉ ((rule_ongoing_rollout cfg now d s).1).problems ∧
    ((rule_ongoing_rollout cfg now d s).1).problems ⊆ s.problems := by
  have hpr := thread_head_ts_problems cfg now KubeEvent.DEPLOYMENT s
  obtain ⟨hd, hg, hc1, hc2⟩ := thread_head_ts_frame cfg now KubeEvent.DEPLOYMENT s
  simp only [rule_ongoing_rollout, hcomp, if_true]
  obtain ⟨hfd, hfg, hfp⟩ := update_thread_head_frame cfg KubeEvent.DEPLOYMENT _
  rw [hfd, hfp]
  simp only [hcomp]
  rw [gen_rollout_problems_complete]
  refine ⟨lookup_derase _ _, not_mem_perase_self _ _, ?_⟩
  rcases hpr with hpr | hpr <;> rw [hpr]
  · exact perase_subset _ _
  · simp [perase]

lemma rule_degraded_char (cfg : Config) (now : Nat) (d : Deployment) (s : KState) :
    (dlookup d.key ((rule_degraded cfg now d s).1).degraded).isSome = true ∧
    ((rule_degraded cfg now d s).1).degraded ≠ [] ∧
    ((rule_degraded cfg now d s).1).degraded_count = s.degraded_count + 1 ∧
    ((rule_degraded cfg now d s).1).deployments = s.deployments ∧
    ((rule_degraded cfg now d s).1).deployment_count = s.deployment_count ∧
    ((rule_degraded cfg now d s).1).headOf KubeEvent.DEPLOYMENT =
      s.headOf KubeEvent.DEPLOYMENT ∧
    (((rule_degraded cfg now d s).1).headOf KubeEvent.DEGRADED).isSome = true ∧
    ((rule_degraded cfg now d s).1).problems =
      ((thread_head_ts cfg now KubeEvent.DEGRADED s).2.1).problems := by
  obtain ⟨hd, hg, hc1, hc2⟩ := thread_head_ts_frame cfg now KubeEvent.DEGRADED s
  have hsome := thread_head_ts_headOf_isSome cfg now KubeEvent.DEGRADED s
  have hother := thread_head_ts_headOf_other cfg now
    KubeEvent.DEGRADED KubeEvent.DEPLOYMENT (by decide) s
  simp only [rule_degraded]
  rw [update_thread_head_nonempty cfg _ _ (by simp [KState.mapOf, dinsert_ne_nil])]
  refine ⟨?_, ?_, ?_, ?_, ?_, ?_, ?_, ?_⟩
  · rw [show (KState.degraded _) = dinsert d.key _
      ((thread_head_ts cfg now KubeEvent.DEGRADED s).2.1).degraded from rfl,
      lookup_dinsert]
    rfl
  · simp [dinsert_ne_nil]
  · simp_all
  · simp_all
  · simp_all
  · simp_all [KState.headOf]
  · simp_all [KState.headOf]
  · rfl

lemma rule_recovery_shape (cfg : Config) (now : Nat) (d : Deployment) (s : KState) :
    ∃ sMid : KState,
      (rule_recovery cfg now d s).1 = (update_thread_head cfg KubeEvent.DEGRADED sMid).1 ∧
      (sMid.headOf KubeEvent.DEGRADED).isSome = true ∧
      sMid.degraded = derase d.key s.degraded ∧
      sMid.deployments = s.deployments ∧
      sMid.deployment_count = s.deployment_count ∧
      sMid.headOf KubeEvent.DEPLOYMENT = s.headOf KubeEvent.DEPLOYMENT ∧
      sMid.degraded_count = s.degraded_count ∧
      sMid.problems = ((thread_head_ts cfg now KubeEvent.DEGRADED s).2.1).problems := by
  obtain ⟨hd, hg, hc1, hc2⟩ := thread_head_ts_frame cfg now KubeEvent.DEGRADED s
  have hsome := thread_head_ts_headOf_isSome cfg now KubeEvent.DEGRADED s
  have hother := thread_head_ts_headOf_other cfg now
    KubeEvent.DEGRADED KubeEvent.DEPLOYMENT (by decide) s
  simp only [rule_recovery]
  refine ⟨_, rfl, ?_, ?_, ?_, ?_, ?_, ?_, ?_⟩ <;> simp_all [KState.headOf]

/-- The thread-head/active-map invariant of claim C9: a category's thread
head is open exactly when its active tracking map is non-empty. -/
def Inv (s : KState) : Prop :=
  (s.thread_head_deployment.isSome = true ↔ s.deployments ≠ []) ∧
  (s.thread_head_degraded.isSome = true ↔ s.degraded ≠ [])

lemma inv_initState : Inv initState := by
  constructor <;> simp [initState]

lemma inv_step (cfg : Config) (now : Nat) (d : Deployment) (s : KState)
    (h : Inv s) : Inv (handle_deployment_change cfg now d s).1 := by
  simp only [handle_deployment_change]
  split_ifs with h1 h2 h3 h4 h5
  · exact h
  · obtain ⟨ha, hb, hc, hdg, he, hf⟩ := rule_new_rollout_char cfg now d s
    constructor
    · simp only [← headOf_DEPLOYMENT]
      rw [he, ha]
      simp [dinsert_ne_nil]
    · simp only [← headOf_DEGRADED]
      rw [hdg, hb]
      exact h.2
  · obtain ⟨ha, hb, hc⟩ := rule_ongoing_rollout_frame cfg now d s
    obtain ⟨hiff, _⟩ := rule_ongoing_rollout_norm cfg now d s
    constructor
    · simp only [← headOf_DEPLOYMENT]
      exact hiff
    · simp only [← headOf_DEGRADED]
      rw [hc, ha]
      exact h.2
  · obtain ⟨ha, hb, hc, hdp, he, hf, hg, hp⟩ := rule_degraded_char cfg now d s
    constructor
    · simp only [← headOf_DEPLOYMENT]
      rw [hf, hdp]
      exact h.1
    · simp only [← headOf_DEGRADED]
      rw [show ((rule_degraded cfg now d s).1).degraded ≠ [] ↔ True from iff_true_intro hb]
      simp only [headOf_DEGRADED] at hg
      simp [hg]
  · obtain ⟨sMid, heq, hh, hdg, hdp, hcnt, hhd, hcnt2, hp⟩ := rule_recovery_shape cfg now d s
    rw [heq]
    obtain ⟨hiff, hemp, hmap⟩ := update_norm cfg KubeEvent.DEGRADED sMid hh
    obtain ⟨hfd, hfg, hfp⟩ := update_thread_head_frame cfg KubeEvent.DEGRADED sMid
    obtain ⟨hoh, hoc⟩ := update_thread_head_other cfg
      KubeEvent.DEGRADED KubeEvent.DEPLOYMENT (by decide) sMid
    constructor
    · simp only [← headOf_DEPLOYMENT]
      rw [hoh, hhd, hfd, hdp]
      exact h.1
    · simp only [← headOf_DEGRADED, ← mapOf_DEGRADED]
      exact hiff
  · exact h

lemma becomes_empty_step (cfg : Config) (now : Nat) (d : Deployment) (s : KState)
    (t : KubeEvent)
    (hafter : ((handle_deployment_change cfg now d s).1).mapOf t = [])
    (hbefore : s.mapOf t ≠ []) :
    ((handle_deployment_change cfg now d s).1).headOf t = none ∧
    ((handle_deployment_change cfg now d s).1).countOf t = 0 := by
  simp only [handle_deployment_change] at hafter ⊢
  split_ifs at hafter ⊢ with h1 h2 h3 h4 h5
  · exact absurd hafter hbefore
  · obtain ⟨ha, hb, hc, hdg, he, hf⟩ := rule_new_rollout_char cfg now d s
    cases t
    · rw [mapOf_DEPLOYMENT, ha] at hafter
      exact absurd hafter (dinsert_ne_nil _ _ _)
    · rw [mapOf_DEGRADED, hb] at hafter
      exact absurd hafter hbefore
  · obtain ⟨ha, hb, hc⟩ := rule_ongoing_rollout_frame cfg now d s
    obtain ⟨hiff, hemp⟩ := rule_ongoing_rollout_norm cfg now d s
    cases t
    · rw [mapOf_DEPLOYMENT] at hafter
      obtain ⟨hx, hy⟩ := hemp hafter
      exact ⟨hx, by simpa using hy⟩
    · rw [mapOf_DEGRADED, ha] at hafter
      exact absurd hafter hbefore
  · obtain ⟨ha, hb, hc, hdp, he, hf, hg, hp⟩ := rule_degraded_char cfg now d s
    cases t
    · rw [mapOf_DEPLOYMENT, hdp] at hafter
      exact absurd hafter hbefore
    · rw [mapOf_DEGRADED] at hafter
      exact absurd hafter hb
  · obtain ⟨sMid, heq, hh, hdg, hdp, hcnt, hhd, hcnt2, hp⟩ := rule_recovery_shape cfg now d s
    rw [heq] at hafter ⊢
    obtain ⟨hiff, hemp, hmap⟩ := update_norm cfg KubeEvent.DEGRADED sMid hh
    obtain ⟨hfd, hfg, hfp⟩ := update_thread_head_frame cfg KubeEvent.DEGRADED sMid
    cases t
    · rw [mapOf_DEPLOYMENT, hfd, hdp] at hafter
      exact absurd hafter hbefore
    · rw [mapOf_DEGRADED, ← mapOf_DEGRADED] at hafter
      obtain ⟨hx, hy⟩ := hemp hafter
      exact ⟨hx, hy⟩
  · exact absurd hafter hbefore

lemma inv_foldl (cfg : Config) (evs : List (Nat × Deployment)) :
    ∀ s, Inv s →
      Inv (evs.foldl (fun s e => (handle_deployment_change cfg e.1 e.2 s).1) s) := by
  induction evs with
  | nil => exact fun s h => h
  | cons e evs ih => exact fun s h => ih _ (inv_step cfg e.1 e.2 s h)

lemma inv_runEvents (cfg : Config) (evs : List (Nat × Deployment)) :
    Inv (runEvents cfg evs) :=
  inv_foldl cfg evs initState inv_initState

lemma runEvents_append_one (cfg : Config) (evs : List (Nat × Deployment))
    (e : Nat × Deployment) :
    runEvents cfg (evs ++ [e]) =
      (handle_deployment_change cfg e.1 e.2 (runEvents cfg evs)).1 := by
  simp [runEvents, List.foldl_append]

lemma rule_degraded_fresh (cfg : Config) (now : Nat) (d : Deployment) (s : KState)
    (hr : MessageRef) (hh : s.headOf KubeEvent.DEGRADED = some hr)
    (hfresh : ¬ cfg.thread_timeout + hr.ts < now) :
    ((rule_degraded cfg now d s).1).problems = s.problems := by
  have h := (rule_degraded_char cfg now d s).2.2.2.2.2.2.2
  rw [thread_head_ts_fresh cfg now KubeEvent.DEGRADED s hr hh hfresh] at h
  exact h

lemma rule_recovery_fresh (cfg : Config) (now : Nat) (d : Deployment) (s : KState)
    (hr : MessageRef) (hh : s.headOf KubeEvent.DEGRADED = some hr)
    (hfresh : ¬ cfg.thread_timeout + hr.ts < now) :
    dlookup d.key ((rule_recovery cfg now d s).1).degraded = none ∧
    ((rule_recovery cfg now d s).1).problems = s.problems ∧
    SendOp.update ((dlookup d.key s.degraded).getD ⟨0, ""⟩).channel
      ((dlookup d.key s.degraded).getD ⟨0, ""⟩).ts
      (generate_deployment_not_degraded_block cfg d) (some hr.ts) ∈
      (rule_recovery cfg now d s).2 := by
  obtain ⟨sMid, heq, hhd, hdg, hdp, hcnt, hhdp, hcnt2, hp⟩ := rule_recovery_shape cfg now d s
  obtain ⟨hfd, hfg, hfp⟩ := update_thread_head_frame cfg KubeEvent.DEGRADED sMid
  refine ⟨?_, ?_, ?_⟩
  · rw [heq, hfg, hdg]
    exact lookup_derase _ _
  · rw [heq, hfp, hp, thread_head_ts_fresh cfg now KubeEvent.DEGRADED s hr hh hfresh]
  · simp only [rule_recovery]
    rw [thread_head_ts_fresh cfg now KubeEvent.DEGRADED s hr hh hfresh]
    simp

/-! Branch reductions for `_handle_deployment_change` -/

lemma handle_eq_rule1 (cfg : Config) (now : Nat) (d : Deployment) (s : KState)
    (hns : d.ns ≠ "kube-system")
    (hdep : dlookup d.key s.deployments = none)
    (hupd : d.updatedReplicas = none) :
    handle_deployment_change cfg now d s = rule_new_rollout cfg now d s := by
  simp only [handle_deployment_change]
  rw [if_neg (by simp [hns]), if_pos (by simp [hdep, hupd])]

lemma handle_eq_rule2 (cfg : Config) (now : Nat) (d : Deployment) (s : KState)
    (hns : d.ns ≠ "kube-system")
    (hdep : (dlookup d.key s.deployments).isSome = true) :
    handle_deployment_change cfg now d s = rule_ongoing_rollout cfg now d s := by
  simp only [handle_deployment_change]
  rw [if_neg (by simp [hns]), if_neg (by simp [Option.isNone_iff_eq_none]; intro h; simp [h] at hdep),
    if_pos hdep]

lemma handle_eq_rule3 (cfg : Config) (now : Nat) (d : Deployment) (s : KState)
    (hns : d.ns ≠ "kube-system")
    (hdep : dlookup d.key s.deployments = none)
    (hupd : d.updatedReplicas ≠ none)
    (hready : d.readyReplicas.getD 0 < d.specReplicas) :
    handle_deployment_change cfg now d s = rule_degraded cfg now d s := by
  simp only [handle_deployment_change]
  rw [if_neg (by simp [hns]), if_neg (by simp [hdep, hupd]),
    if_neg (by simp [hdep]), if_pos hready]

lemma handle_eq_rule4 (cfg : Config) (now : Nat) (d : Deployment) (s : KState)
    (hns : d.ns ≠ "kube-system")
    (hdep : dlookup d.key s.deployments = none)
    (hupd : d.updatedReplicas ≠ none)
    (hready : d.specReplicas ≤ d.readyReplicas.getD 0)
    (hdeg : (dlookup d.key s.degraded).isSome = true) :
    handle_deployment_change cfg now d s = rule_recovery cfg now d s := by
  simp only [handle_deployment_change]
  rw [if_neg (by simp [hns]), if_neg (by simp [hdep, hupd]),
    if_neg (by simp [hdep]), if_neg (by simpa using Nat.not_lt.2 hready),
    if_pos (by simp [hdeg, hready])]

lemma handle_noop_inert (cfg : Config) (now : Nat) (d : Deployment) (s : KState)
    (hdep : dlookup d.key s.deployments = none)
    (hupd : d.updatedReplicas ≠ none)
    (hready : d.specReplicas ≤ d.readyReplicas.getD 0)
    (hdeg : dlookup d.key s.degraded = none) :
    handle_deployment_change cfg now d s = (s, []) := by
  simp only [handle_deployment_change]
  by_cases hns : d.ns = "kube-system"
  · rw [if_pos (by simp [hns])]
  · rw [if_neg (by simp [hns]), if_neg (by simp [hdep, hupd]),
      if_neg (by simp [hdep]), if_neg (by simpa using Nat.not_lt.2 hready),
      if_neg (by simp [hdeg])]

lemma handle_kube_system (cfg : Config) (now : Nat) (d : Deployment) (s : KState)
    (hns : d.ns = "kube-system") :
    handle_deployment_change cfg now d s = (s, []) := by
  simp only [handle_deployment_change]
  rw [if_pos (by simp [hns])]

/-- Claim C1 (counterexample): starting from the fresh state, a snapshot with
ready below desired puts key n/a into the degraded map; a following snapshot
for the same key with updated-replica count absent fires the new-rollout rule,
which inserts the key into the rollout map without removing it from the
degraded map — the key ends up in both maps simultaneously. -/
theorem c1_counterexample :
    (dlookup "n/a"
      (runEvents cfg0 [(1, degradedA), (2, startA)]).deployments).isSome = true ∧
    (dlookup "n/a"
      (runEvents cfg0 [(1, degradedA), (2, startA)]).degraded).isSome = true := by
  decide

/-- Claim C1 (amended): handling a snapshot whose key is absent from the
rollout map but present in the degraded map, with updated-replica count
absent, leaves the key simultaneously present in both tracking maps: rule 1
inserts into the rollout map without consulting or clearing the degraded map. -/
theorem c1_amended (cfg : Config) (now : Nat) (d : Deployment) (s : KState)
    (hns : d.ns ≠ "kube-system")
    (hdep : dlookup d.key s.deployments = none)
    (hupd : d.updatedReplicas = none)
    (hdeg : (dlookup d.key s.degraded).isSome = true) :
    (dlookup d.key ((handle_deployment_change cfg now d s).1).deployments).isSome = true ∧
    (dlookup d.key ((handle_deployment_change cfg now d s).1).degraded).isSome = true := by
  rw [handle_eq_rule1 cfg now d s hns hdep hupd]
  obtain ⟨ha, hb, _, _, _, _⟩ := rule_new_rollout_char cfg now d s
  rw [ha, hb, lookup_dinsert]
  exact ⟨rfl, hdeg⟩

/-- Witness for the amended C1 at a concrete reachable state. -/
theorem c1_amended_witness :
    (startA.ns ≠ "kube-system" ∧
      dlookup startA.key (runEvents cfg0 [(1, degradedA)]).deployments = none ∧
      startA.updatedReplicas = none ∧
      (dlookup startA.key (runEvents cfg0 [(1, degradedA)]).degraded).isSome = true) ∧
    ((dlookup startA.key
        ((handle_deployment_change cfg0 2 startA
          (runEvents cfg0 [(1, degradedA)])).1).deployments).isSome = true ∧
      (dlookup startA.key
        ((handle_deployment_change cfg0 2 startA
          (runEvents cfg0 [(1, degradedA)])).1).degraded).isSome = true) :=
  ⟨⟨by decide, by decide, rfl, by decide⟩,
    c1_amended cfg0 2 startA (runEvents cfg0 [(1, degradedA)])
      (by decide) (by decide) rfl (by decide)⟩

/-- Claim C2 (counterexample): when the underlying call fails on all five
attempts, `_send_slack_block` does not raise — its `while` loop exhausts the
budget and the function returns `None`. -/
theorem c2_counterexample :
    send_slack_block_result (fun _ => Attempt.err "ratelimited") =
      CallResult.ret none := rfl

/-- Claim C2 (amended): if every one of the five attempts fails, the call
terminates by returning `None`; the final exception is swallowed, not
propagated. -/
theorem c2_amended (f : Nat → Attempt)
    (h : ∀ i, i < 5 → ∃ e, f i = Attempt.err e) :
    send_slack_block_result f = CallResult.ret none := by
  obtain ⟨e0, h0⟩ := h 0 (by decide)
  obtain ⟨e1, h1⟩ := h 1 (by decide)
  obtain ⟨e2, h2⟩ := h 2 (by decide)
  obtain ⟨e3, h3⟩ := h 3 (by decide)
  obtain ⟨e4, h4⟩ := h 4 (by decide)
  have hrun : send_slack_block_result f =
      send_slack_block_run [f 0, f 1, f 2, f 3, f 4] := rfl
  rw [hrun, h0, h1, h2, h3, h4]
  rfl

/-- Witness for the amended C2: five failing attempts return `None`. -/
theorem c2_amended_witness :
    (∀ i, i < 5 → ∃ e, (fun _ => Attempt.err "down") i = Attempt.err e) ∧
    send_slack_block_result (fun _ => Attempt.err "down") = CallResult.ret none :=
  ⟨fun _ _ => ⟨"down", rfl⟩, c2_amended _ (fun _ _ => ⟨"down", rfl⟩)⟩

/-- Claim C3 (counterexample): a reachable five-event run in which key n/a
fails a rollout (entering the ProblemRegistry), becomes degraded, and then
recovers.  The recovery removes the key from the degraded map but leaves its
ProblemRegistry entry in place, contradicting the claim that recovery
removes the key's entry from the ProblemRegistry. -/
theorem c3_counterexample :
    ((dlookup "n/a" (runEvents cfg0
        [(1, startA), (2, degradedB), (3, failA), (4, degradedA)]).degraded).isSome = true ∧
      "n/a" ∈ (runEvents cfg0
        [(1, startA), (2, degradedB), (3, failA), (4, degradedA)]).problems) ∧
    dlookup "n/a" (runEvents cfg0
      [(1, startA), (2, degradedB), (3, failA), (4, degradedA), (5, recoverA)]).degraded
        = none ∧
    (runEvents cfg0
      [(1, startA), (2, degradedB), (3, failA), (4, degradedA), (5, recoverA)]).problems
        = ["n/a"] := by
  decide

/-- Claim C3 (amended): for a snapshot whose key is in the degraded map with
ready at least desired (and not claimed by rules 1/2), the classifier sends a
recovered message to the existing MessageRef and removes the key from the
degraded map, but leaves the ProblemRegistry unchanged — assuming the
Degraded thread head is open and within its timeout (otherwise the acquire
would clear the registry wholesale). -/
theorem c3_amended (cfg : Config) (now : Nat) (d : Deployment) (s : KState)
    (r hr : MessageRef)
    (hns : d.ns ≠ "kube-system")
    (hdep : dlookup d.key s.deployments = none)
    (hupd : d.updatedReplicas ≠ none)
    (hready : d.specReplicas ≤ d.readyReplicas.getD 0)
    (hdeg : dlookup d.key s.degraded = some r)
    (hh : s.headOf KubeEvent.DEGRADED = some hr)
    (hfresh : ¬ cfg.thread_timeout + hr.ts < now) :
    dlookup d.key ((handle_deployment_change cfg now d s).1).degraded = none ∧
    ((handle_deployment_change cfg now d s).1).problems = s.problems ∧
    SendOp.update r.channel r.ts (generate_deployment_not_degraded_block cfg d)
      (some hr.ts) ∈ (handle_deployment_change cfg now d s).2 := by
  rw [handle_eq_rule4 cfg now d s hns hdep hupd hready (by simp [hdeg])]
  obtain ⟨ha, hb, hc⟩ := rule_recovery_fresh cfg now d s hr hh hfresh
  refine ⟨ha, hb, ?_⟩
  rw [hdeg] at hc
  simpa using hc

/-- Witness for the amended C3 at the concrete reachable state of the
counterexample run. -/
theorem c3_amended_witness :
    (recoverA.ns ≠ "kube-system" ∧
      dlookup recoverA.key (runEvents cfg0
        [(1, startA), (2, degradedB), (3, failA), (4, degradedA)]).deployments = none ∧
      recoverA.updatedReplicas ≠ none ∧
      recoverA.specReplicas ≤ recoverA.readyReplicas.getD 0 ∧
      dlookup recoverA.key (runEvents cfg0
        [(1, startA), (2, degradedB), (3, failA), (4, degradedA)]).degraded =
          some ⟨4, "A"⟩ ∧
      (runEvents cfg0 [(1, startA), (2, degradedB), (3, failA),
        (4, degradedA)]).headOf KubeEvent.DEGRADED = some ⟨2, "D"⟩ ∧
      ¬ cfg0.thread_timeout + (2 : Nat) < 5) ∧
    (dlookup recoverA.key ((handle_deployment_change cfg0 5 recoverA (runEvents cfg0
        [(1, startA), (2, degradedB), (3, failA), (4, degradedA)])).1).degraded = none ∧
      ((handle_deployment_change cfg0 5 recoverA (runEvents cfg0
        [(1, startA), (2, degradedB), (3, failA), (4, degradedA)])).1).problems =
        (runEvents cfg0
          [(1, startA), (2, degradedB), (3, failA), (4, degradedA)]).problems ∧
      SendOp.update "A" 4 (generate_deployment_not_degraded_block cfg0 recoverA)
        (some 2) ∈ (handle_deployment_change cfg0 5 recoverA (runEvents cfg0
          [(1, startA), (2, degradedB), (3, failA), (4, degradedA)])).2) :=
  ⟨⟨by decide, by decide, by decide, by decide, by decide, by decide, by decide⟩,
    c3_amended cfg0 5 recoverA _ ⟨4, "A"⟩ ⟨2, "D"⟩
      (by decide) (by decide) (by decide) (by decide) (by decide) (by decide) (by decide)⟩

/-- Claim C4 (counterexample): the first degraded snapshot for key n/b
inserts it and sets the counter to 1 but adds no ProblemRegistry entry
(the claim says it marks the key as a problem); a second degraded snapshot
for the same key updates in place yet still increments the counter to 2
(the claim says no increment). -/
theorem c4_counterexample :
    (runEvents cfg0 [(1, degradedB)]).problems = [] ∧
    (dlookup "n/b" (runEvents cfg0 [(1, degradedB)]).degraded).isSome = true ∧
    (runEvents cfg0 [(1, degradedB)]).degraded_count = 1 ∧
    (runEvents cfg0 [(1, degradedB), (2, degradedB)]).degraded_count = 2 := by
  decide

/-- Claim C4 (amended): whenever the degradation rule fires (with a fresh
open Degraded head), the key is present in the degraded map afterwards, the
Degraded counter is incremented unconditionally — also when the key was
already tracked and the message is only updated in place — and the
ProblemRegistry is left unchanged (no problem entry is added). -/
theorem c4_amended (cfg : Config) (now : Nat) (d : Deployment) (s : KState)
    (hr : MessageRef)
    (hns : d.ns ≠ "kube-system")
    (hdep : dlookup d.key s.deployments = none)
    (hupd : d.updatedReplicas ≠ none)
    (hready : d.readyReplicas.getD 0 < d.specReplicas)
    (hh : s.headOf KubeEvent.DEGRADED = some hr)
    (hfresh : ¬ cfg.thread_timeout + hr.ts < now) :
    (dlookup d.key ((handle_deployment_change cfg now d s).1).degraded).isSome = true ∧
    ((handle_deployment_change cfg now d s).1).degraded_count = s.degraded_count + 1 ∧
    ((handle_deployment_change cfg now d s).1).problems = s.problems := by
  rw [handle_eq_rule3 cfg now d s hns hdep hupd hready]
  obtain ⟨ha, _, hc, _, _, _, _, _⟩ := rule_degraded_char cfg now d s
  exact ⟨ha, hc, rule_degraded_fresh cfg now d s hr hh hfresh⟩

/-- Witness for the amended C4: a second degraded snapshot for an
already-tracked key still increments the counter and leaves the registry
unchanged. -/
theorem c4_amended_witness :
    (degradedB.ns ≠ "kube-system" ∧
      dlookup degradedB.key (runEvents cfg0 [(1, degradedB)]).deployments = none ∧
      degradedB.updatedReplicas ≠ none ∧
      degradedB.readyReplicas.getD 0 < degradedB.specReplicas ∧
      (runEvents cfg0 [(1, degradedB)]).headOf KubeEvent.DEGRADED = some ⟨1, "D"⟩ ∧
      ¬ cfg0.thread_timeout + (1 : Nat) < 2) ∧
    ((dlookup degradedB.key ((handle_deployment_change cfg0 2 degradedB
        (runEvents cfg0 [(1, degradedB)])).1).degraded).isSome = true ∧
      ((handle_deployment_change cfg0 2 degradedB
        (runEvents cfg0 [(1, degradedB)])).1).degraded_count =
        (runEvents cfg0 [(1, degradedB)]).degraded_count + 1 ∧
      ((handle_deployment_change cfg0 2 degradedB
        (runEvents cfg0 [(1, degradedB)])).1).problems =
        (runEvents cfg0 [(1, degradedB)]).problems) :=
  ⟨⟨by decide, by decide, by decide, by decide, by decide, by decide⟩,
    c4_amended cfg0 2 degradedB _ ⟨1, "D"⟩
      (by decide) (by decide) (by decide) (by decide) (by decide) (by decide)⟩

/-- Claim C5 (counterexample): key n/a is in the rollout map; the next
snapshot has updated = 2, status-replicas = 2, ready = 2, but desired
(`spec.replicas`) = 3.  The claimed completion condition
`updated == desired == ready` is false (2 ≠ 3), yet the code treats the
rollout as complete — it compares against `status.replicas`, not the desired
count — and removes the key from the rollout map. -/
theorem c5_counterexample :
    completeA.updatedReplicas = some 2 ∧ completeA.specReplicas = 3 ∧
    (dlookup "n/a" (runEvents cfg0 [(1, startA)]).deployments).isSome = true ∧
    dlookup "n/a"
      (runEvents cfg0 [(1, startA), (2, completeA)]).deployments = none := by
  decide

/-- Claim C5 (amended): for a snapshot whose key is in the rollout map,
completion is decided by `updated == status.replicas == ready` (the status
total replica count, not the desired `spec.replicas`, with Python
`None == None` true and the ready count defaulted to 0); when it holds the
key is removed from the rollout map and the key's ProblemRegistry entry is
cleared — never added (the resulting registry is a subset of the old one). -/
theorem c5_amended (cfg : Config) (now : Nat) (d : Deployment) (s : KState)
    (hns : d.ns ≠ "kube-system")
    (hdep : (dlookup d.key s.deployments).isSome = true)
    (hcomp : (d.updatedReplicas == d.statusReplicas &&
      d.statusReplicas == some (d.readyReplicas.getD 0)) = true) :
    dlookup d.key ((handle_deployment_change cfg now d s).1).deployments = none ∧
    d.key ∉ ((handle_deployment_change cfg now d s).1).problems ∧
    ((handle_deployment_change cfg now d s).1).problems ⊆ s.problems := by
  rw [handle_eq_rule2 cfg now d s hns hdep]
  exact rule_ongoing_rollout_complete cfg now d s hcomp

/-- Witness for the amended C5 at the concrete state of the counterexample. -/
theorem c5_amended_witness :
    (completeA.ns ≠ "kube-system" ∧
      (dlookup completeA.key (runEvents cfg0 [(1, startA)]).deployments).isSome = true ∧
      (completeA.updatedReplicas == completeA.statusReplicas &&
        completeA.statusReplicas == some (completeA.readyReplicas.getD 0)) = true) ∧
    (dlookup completeA.key ((handle_deployment_change cfg0 2 completeA
        (runEvents cfg0 [(1, startA)])).1).deployments = none ∧
      completeA.key ∉ ((handle_deployment_change cfg0 2 completeA
        (runEvents cfg0 [(1, startA)])).1).problems ∧
      ((handle_deployment_change cfg0 2 completeA
        (runEvents cfg0 [(1, startA)])).1).problems ⊆
        (runEvents cfg0 [(1, startA)]).problems) :=
  ⟨⟨by decide, by decide, by decide⟩,
    c5_amended cfg0 2 completeA (runEvents cfg0 [(1, startA)])
      (by decide) (by decide) (by decide)⟩

/-- Claim C6 (counterexample): key n/a fails its rollout and enters the
ProblemRegistry; the next snapshot for the same key is a degraded event
(updated count present, so not a rule-1 rollout start), yet the entry is
removed — acquiring the Degraded thread head opened a new head and cleared
the whole registry. -/
theorem c6_counterexample :
    (runEvents cfg0 [(1, startA), (2, failA)]).problems = ["n/a"] ∧
    dlookup "n/a" (runEvents cfg0 [(1, startA), (2, failA)]).deployments = none ∧
    (runEvents cfg0 [(1, startA), (2, failA), (3, degradedA)]).problems = [] := by
  decide

/-- Claim C6 (amended): a ProblemRegistry entry survives any later degraded
or recovery (or inert) event — for the same or any other key — provided the
event is not a rule-1/2 rollout event for its key and the Degraded thread
head is open and within its timeout; an acquire that opens a new head or
times out an old one clears the entire registry, and a new rollout-start
event (rule 1) for the key removes the entry. -/
theorem c6_amended (cfg : Config) (now : Nat) (d : Deployment) (s : KState)
    (hr : MessageRef) (k : String)
    (hk : k ∈ s.problems)
    (hdep : dlookup d.key s.deployments = none)
    (hupd : d.updatedReplicas ≠ none)
    (hh : s.headOf KubeEvent.DEGRADED = some hr)
    (hfresh : ¬ cfg.thread_timeout + hr.ts < now) :
    ((handle_deployment_change cfg now d s).1).problems = s.problems ∧
    k ∈ ((handle_deployment_change cfg now d s).1).problems := by
  suffices hp : ((handle_deployment_change cfg now d s).1).problems = s.problems by
    exact ⟨hp, hp ▸ hk⟩
  by_cases hns : d.ns = "kube-system"
  · rw [handle_kube_system cfg now d s hns]
  by_cases hready : d.readyReplicas.getD 0 < d.specReplicas
  · rw [handle_eq_rule3 cfg now d s hns hdep hupd hready]
    exact rule_degraded_fresh cfg now d s hr hh hfresh
  by_cases hdeg : (dlookup d.key s.degraded).isSome = true
  · rw [handle_eq_rule4 cfg now d s hns hdep hupd (Nat.not_lt.1 hready) hdeg]
    exact (rule_recovery_fresh cfg now d s hr hh hfresh).2.1
  · have hdeg0 : dlookup d.key s.degraded = none := by
      cases hx : dlookup d.key s.degraded with
      | none => rfl
      | some v => rw [hx] at hdeg; simp at hdeg
    rw [handle_noop_inert cfg now d s hdep hupd (Nat.not_lt.1 hready) hdeg0]

/-- Witness for the amended C6: a degraded event for key n/a arrives while
the registry holds n/a and the Degraded head is fresh; the entry survives. -/
theorem c6_amended_witness :
    ("n/a" ∈ (runEvents cfg0
        [(1, startA), (2, degradedB), (3, failA), (4, degradedA)]).problems ∧
      dlookup degradedA.key (runEvents cfg0
        [(1, startA), (2, degradedB), (3, failA), (4, degradedA)]).deployments = none ∧
      degradedA.updatedReplicas ≠ none ∧
      (runEvents cfg0 [(1, startA), (2, degradedB), (3, failA),
        (4, degradedA)]).headOf KubeEvent.DEGRADED = some ⟨2, "D"⟩ ∧
      ¬ cfg0.thread_timeout + (2 : Nat) < 5) ∧
    (((handle_deployment_change cfg0 5 degradedA (runEvents cfg0
        [(1, startA), (2, degradedB), (3, failA), (4, degradedA)])).1).problems =
      (runEvents cfg0
        [(1, startA), (2, degradedB), (3, failA), (4, degradedA)]).problems ∧
      "n/a" ∈ ((handle_deployment_change cfg0 5 degradedA (runEvents cfg0
        [(1, startA), (2, degradedB), (3, failA), (4, degradedA)])).1).problems) :=
  ⟨⟨by decide, by decide, by decide, by decide, by decide⟩,
    c6_amended cfg0 5 degradedA _ ⟨2, "D"⟩ "n/a"
      (by decide) (by decide) (by decide) (by decide) (by decide)⟩

/-- Claim C7 (counterexample): composing the rollout block is not pure — on a
snapshot whose latest condition is Progressing/False it inserts the
snapshot's key into the ProblemRegistry, changing engine state. -/
theorem c7_counterexample :
    (generate_deployment_rollout_block cfg0 [] failA false).2 ≠ ([] : List String) := by
  decide

/-- Claim C7 (amended): the degraded, recovered and thread-head composers are
pure functions of their inputs, but the rollout-block composer reads the
ProblemRegistry and mutates it at the snapshot's own key (popping it,
re-adding it when the latest condition is Progressing/False, popping it again
on completion); entries for every other key are preserved. -/
theorem c7_amended (cfg : Config) (p : List String) (d : Deployment)
    (rc : Bool) (k' : String) (hne : k' ≠ d.key) :
    (k' ∈ (generate_deployment_rollout_block cfg p d rc).2 ↔ k' ∈ p) := by
  simp only [generate_deployment_rollout_block]
  split_ifs <;> simp [mem_perase, mem_pinsert, hne]

/-- Witness for the amended C7: another key's entry survives the rollout
composer. -/
theorem c7_amended_witness :
    ("x" ≠ failA.key) ∧
    ("x" ∈ (generate_deployment_rollout_block cfg0 ["x"] failA false).2 ↔
      "x" ∈ ["x"]) :=
  ⟨by decide, c7_amended cfg0 ["x"] failA false "x" (by decide)⟩

/-- Claim C8 (confirmed): when a category's thread head is open and its age
exceeds the timeout threshold, the next `_thread_head_ts` call performs
exactly one timed-out update of the existing head message followed by exactly
one new open (PROGRESSING) post creating a fresh head, and leaves the
ProblemRegistry empty. -/
theorem c8_timeout_acquire (cfg : Config) (now : Nat) (t : KubeEvent) (s : KState)
    (r : MessageRef) (hh : s.headOf t = some r)
    (hstale : cfg.thread_timeout + r.ts < now) :
    (thread_head_ts cfg now t s).1 = now ∧
    ((thread_head_ts cfg now t s).2.1).headOf t =
      some ⟨now, cfg.slack_deploy_channel⟩ ∧
    ((thread_head_ts cfg now t s).2.1).problems = [] ∧
    (thread_head_ts cfg now t s).2.2 =
      [SendOp.update r.channel r.ts
        (generate_thread_head_block cfg s t KubeStatus.TIMED_OUT) none,
       SendOp.post cfg.slack_deploy_channel
        (generate_thread_head_block cfg { s.setHead t none with problems := [] }
          t KubeStatus.PROGRESSING) none] := by
  cases t <;> simp only [headOf_DEPLOYMENT, headOf_DEGRADED] at hh <;>
    simp [thread_head_ts, KState.headOf, KState.setHead, hh, hstale]

/-- Witness for C8: the Rollout head opened at ts 1 is acquired at time
99999 (past the 3600-second timeout), producing the timed-out update, the
fresh open post, and an empty registry. -/
theorem c8_timeout_acquire_witness :
    ((runEvents cfg0 [(1, startA)]).headOf KubeEvent.DEPLOYMENT =
        some ⟨1, "D"⟩ ∧
      cfg0.thread_timeout + (1 : Nat) < 99999) ∧
    ((thread_head_ts cfg0 99999 KubeEvent.DEPLOYMENT
        (runEvents cfg0 [(1, startA)])).1 = 99999 ∧
      ((thread_head_ts cfg0 99999 KubeEvent.DEPLOYMENT
        (runEvents cfg0 [(1, startA)])).2.1).headOf KubeEvent.DEPLOYMENT =
        some ⟨99999, cfg0.slack_deploy_channel⟩ ∧
      ((thread_head_ts cfg0 99999 KubeEvent.DEPLOYMENT
        (runEvents cfg0 [(1, startA)])).2.1).problems = [] ∧
      (thread_head_ts cfg0 99999 KubeEvent.DEPLOYMENT
        (runEvents cfg0 [(1, startA)])).2.2 =
        [SendOp.update "D" 1
          (generate_thread_head_block cfg0 (runEvents cfg0 [(1, startA)])
            KubeEvent.DEPLOYMENT KubeStatus.TIMED_OUT) none,
         SendOp.post cfg0.slack_deploy_channel
          (generate_thread_head_block cfg0
            { (runEvents cfg0 [(1, startA)]).setHead KubeEvent.DEPLOYMENT none with
              problems := [] } KubeEvent.DEPLOYMENT KubeStatus.PROGRESSING) none]) :=
  ⟨⟨by decide, by decide⟩,
    c8_timeout_acquire cfg0 99999 KubeEvent.DEPLOYMENT
      (runEvents cfg0 [(1, startA)]) ⟨1, "D"⟩ (by decide) (by decide)⟩

/-- Claim C9 (confirmed): after fully processing any sequence of snapshots,
a category's thread head is open if and only if that category's active
tracking map is non-empty; and in a step where the active map becomes empty,
the head is closed (set to none) and the category's counter is reset to 0 in
that same step. -/
theorem c9_thread_head_invariant (cfg : Config) (evs : List (Nat × Deployment))
    (now : Nat) (d : Deployment) (t : KubeEvent) :
    (((runEvents cfg evs).headOf t).isSome = true ↔
      (runEvents cfg evs).mapOf t ≠ []) ∧
    ((runEvents cfg (evs ++ [(now, d)])).mapOf t = [] →
      (runEvents cfg evs).mapOf t ≠ [] →
      (runEvents cfg (evs ++ [(now, d)])).headOf t = none ∧
      (runEvents cfg (evs ++ [(now, d)])).countOf t = 0) := by
  have hinv := inv_runEvents cfg evs
  constructor
  · cases t
    · exact hinv.1
    · exact hinv.2
  · intro hafter hbefore
    rw [runEvents_append_one] at hafter ⊢
    exact becomes_empty_step cfg now d (runEvents cfg evs) t hafter hbefore

/-- Witness for C9: a rollout completes, emptying the Rollout map; the head
closes and the counter resets in the same step. -/
theorem c9_thread_head_invariant_witness :
    (((runEvents cfg0 [(1, startA)]).headOf KubeEvent.DEPLOYMENT).isSome = true ↔
      (runEvents cfg0 [(1, startA)]).mapOf KubeEvent.DEPLOYMENT ≠ []) ∧
    ((runEvents cfg0 ([(1, startA)] ++ [(2, completeA)])).mapOf
        KubeEvent.DEPLOYMENT = [] ∧
      (runEvents cfg0 [(1, startA)]).mapOf KubeEvent.DEPLOYMENT ≠ [] ∧
      (runEvents cfg0 ([(1, startA)] ++ [(2, completeA)])).headOf
        KubeEvent.DEPLOYMENT = none ∧
      (runEvents cfg0 ([(1, startA)] ++ [(2, completeA)])).countOf
        KubeEvent.DEPLOYMENT = 0) :=
  ⟨(c9_thread_head_invariant cfg0 [(1, startA)] 2 completeA KubeEvent.DEPLOYMENT).1,
    by decide, by decide,
    (c9_thread_head_invariant cfg0 [(1, startA)] 2 completeA KubeEvent.DEPLOYMENT).2
      (by decide) (by decide)⟩

lemma repChar_length (c : Char) (n : Nat) : (repChar c n).length = n := by
  simp [repChar, String.length]

lemma normMax_ne_zero (m : Option Int) : normMax m ≠ 0 := by
  unfold normMax
  cases m with
  | none => simp
  | some v =>
    by_cases hv : v = 0 <;> simp [hv]

lemma generate_progress_bar_length (p m : Option Int) :
    (generate_progress_bar p m).length =
      (Int.tdiv (100 * normPos p) (normMax m * 5)).toNat +
      ((20 : Int) - Int.tdiv (100 * normPos p) (normMax m * 5)).toNat + 1 := by
  simp [generate_progress_bar, String.length_append, repChar_length]
  rfl

/-- Claim C10 (counterexample): at position 2 with denominator 1 the bar has
40 cells, not 20 — Python's negative string-repetition count for the empty
cells collapses to the empty string instead of compensating, so the cell
count is not 20 when the position exceeds the denominator. -/
theorem c10_counterexample :
    progressBarCellCount (some 2) (some 1) = 40 := by decide

/-- Claim C10 (amended): with an absent position normalized to 0 and an
absent or zero denominator normalized to 1, the generated progress bar
consists of exactly 20 cells whenever the normalized position is nonnegative
and does not exceed the normalized denominator; when the position exceeds
the denominator, the filled-cell count `⌊position/denominator·20⌋` exceeds
20 and the bar grows beyond 20 cells. -/
theorem c10_amended (p m : Option Int)
    (hp : 0 ≤ normPos p) (hle : normPos p ≤ normMax m) :
    progressBarCellCount p m = 20 := by
  have hmne := normMax_ne_zero m
  have hmpos : 0 < normMax m := by
    rcases lt_or_eq_of_le (le_trans hp hle) with h | h
    · exact h
    · exact absurd h.symm hmne
  set n : Int := Int.tdiv (100 * normPos p) (normMax m * 5) with hn
  have hnn : 0 ≤ n := Int.tdiv_nonneg (by positivity) (by positivity)
  have hb5 : (0 : Int) < normMax m * 5 := by positivity
  have hne : n ≤ 20 := by
    rw [hn, Int.tdiv_eq_ediv (by positivity) (le_of_lt hb5)]
    calc 100 * normPos p / (normMax m * 5)
        ≤ 100 * normMax m / (normMax m * 5) := by
          apply Int.ediv_le_ediv hb5
          have := hle
          nlinarith
      _ = 20 := by
          rw [show (100 : Int) * normMax m = 20 * (normMax m * 5) by ring]
          exact Int.mul_ediv_cancel 20 (by positivity)
  unfold progressBarCellCount
  rw [generate_progress_bar_length]
  omega

/-- Witness for the amended C10: position 1 of denominator 3 gives a
20-cell bar. -/
theorem c10_amended_witness :
    (0 ≤ normPos (some 1) ∧ normPos (some 1) ≤ normMax (some 3)) ∧
    progressBarCellCount (some 1) (some 3) = 20 :=
  ⟨⟨by decide, by decide⟩, c10_amended (some 1) (some 3) (by decide) (by decide)⟩

end KubeLookout
